import Mathlib

/-!
Verification of the self-registration reconciler of the easegress mesh sidecar.

The development shallowly embeds two source files:

* `pkg/object/meshcontroller/registrycenter/registry.go` — the registration
  controller (`Server`), its background reconciliation loop `register`, the
  record-drift predicate `needUpdateRecord`, and the public operations
  `Register`, `Registered`, `Close`.
* the storage facade (`storage` package) — `clusterStorage` wrapping a
  `cluster.Cluster` with a lazily/eagerly initialized distributed mutex
  handle (`New`, `mutexGoReady`, `Lock`, `Unlock`, and the pass-through
  data operations).

Go-level effects (store reads/writes, log lines) are made explicit as an
effect trace; the goroutine's per-iteration behaviour is a step function on
the controller state; panics and `recover` are an explicit `panicked`
constructor caught by the `routine` wrapper, mirroring the deferred
`recover()` in the source.
-/

namespace registrycenter

/-- Mirrors `spec.ServiceInstanceSpec`: the persisted instance record.
`Status` and `RegistryTime` are the zero value `""` until a successful
registration write stamps them. Labels are an association list (Go map,
order irrelevant for the claims, none of which compares labels). -/
structure ServiceInstanceSpec where
  serviceName : String
  instanceID : String
  ip : String
  port : Nat
  labels : List (String × String)
  status : String
  registryTime : String
  deriving DecidableEq

/-- Modelled from the spec: the constant `spec.SerivceStatusUp` (its defining
file is not under src/); the spec fixes the status written at successful
registration to the enum value "up". -/
def SerivceStatusUp : String := "up"

/-- Mirrors the `Server` struct of registry.go: the controller's own state.
`done` (a channel closed by `Close`) is modelled by the boolean `doneClosed`;
the `sync.RWMutex` serializes the fields, which the sequential embedding
gives for free; `service` (the store handle) lives in `Env` below. -/
structure ServerState where
  registryType : String
  registered : Bool
  serviceName : String
  instanceID : String
  ip : String
  port : Nat
  tenant : String
  serviceLabels : List (String × String)
  doneClosed : Bool
  deriving DecidableEq

/-- Mirrors `NewRegistryCenterServer` (registry.go lines 45-60): fresh state
with `registered = false` and an open `done` channel. -/
def NewRegistryCenterServer (registryType serviceName ip : String) (port : Nat)
    (instanceID : String) (serviceLabels : List (String × String)) : ServerState :=
  { registryType := registryType
    registered := false
    serviceName := serviceName
    instanceID := instanceID
    ip := ip
    port := port
    tenant := ""
    serviceLabels := serviceLabels
    doneClosed := false }

/-- Mirrors `Registered` (registry.go lines 63-67): snapshot read of the
`registered` flag under the read lock. -/
def Registered (s : ServerState) : Bool := s.registered

/-- Mirrors `Close` (registry.go lines 70-72): `close(rcs.done)`. Go panics
when closing an already-closed channel, modelled as `Except.error`. -/
def Close (s : ServerState) : Except String ServerState :=
  if s.doneClosed then .error "close of closed channel"
  else .ok { s with doneClosed := true }

/-- Modelled from the spec: the fields of `spec.Service` that `Register`
reads (its defining file is not under src/) — a tenant identifier
(`RegisterTenant`) and the sidecar's configured ingress port
(`Sidecar.IngressPort`). -/
structure ServiceSpec where
  registerTenant : String
  sidecarIngressPort : Nat
  deriving DecidableEq

/-- Mirrors `Register` (registry.go lines 75-90). It stores the tenant,
returns early when already registered, otherwise builds the desired record
(status and registry time still zero) and launches one background goroutine
(`go rcs.register(...)`). `taskCount` counts launched goroutines; the result
carries the state, the new count, and the record handed to the new task
(`none` when no task was started). `uint32(IngressPort)` is the Go
conversion, hence the `% 2 ^ 32`. -/
def Register (serviceSpec : ServiceSpec) (s : ServerState) (taskCount : Nat) :
    ServerState × Nat × Option ServiceInstanceSpec :=
  let s := { s with tenant := serviceSpec.registerTenant }
  if Registered s then (s, taskCount, none)
  else
    let ins : ServiceInstanceSpec :=
      { serviceName := s.serviceName
        instanceID := s.instanceID
        ip := s.ip
        port := serviceSpec.sidecarIngressPort % 2 ^ 32
        labels := s.serviceLabels
        status := ""
        registryTime := "" }
    (s, taskCount + 1, some ins)

/-- Mirrors `needUpdateRecord` (registry.go lines 92-102): a write is needed
iff no prior record exists or the prior record differs in IP or Port.
Labels, tenant, status and time are not compared. -/
def needUpdateRecord (originIns : Option ServiceInstanceSpec)
    (ins : ServiceInstanceSpec) : Bool :=
  match originIns with
  | none => true
  | some o => o.ip != ins.ip || o.port != ins.port

/-- Observable side effects of one reconciliation attempt: the store read
(`service.GetServiceInstanceSpec`), the store write
(`service.PutServiceInstanceSpec`, carrying the written record), and log
lines (`logger.Infof` / `logger.Errorf`, payloads abstracted away). -/
inductive Effect where
  | storeRead (serviceName instanceID : String)
  | storeWrite (ins : ServiceInstanceSpec)
  | logInfo
  | logError
  deriving DecidableEq

/-- Records written by a trace of effects. -/
def writesOf : List Effect → List ServiceInstanceSpec
  | [] => []
  | .storeWrite w :: rest => w :: writesOf rest
  | .storeRead _ _ :: rest => writesOf rest
  | .logInfo :: rest => writesOf rest
  | .logError :: rest => writesOf rest

/-- True for store reads and writes. -/
def Effect.isStoreOp : Effect → Bool
  | .storeRead _ _ => true
  | .storeWrite _ => true
  | .logInfo => false
  | .logError => false

/-- The external world one attempt interacts with, modelled from the spec's
collaborator contracts (the `service.Service` store handle is not under
src/): both readiness gates (pure predicates), the record the store
currently holds for this instance key (`none` when absent), the RFC 3339
rendering of `time.Now()`, and whether `PutServiceInstanceSpec` fails —
surfaced as a Go panic, caught by the attempt's recovery boundary. -/
structure Env where
  ingressReady : Bool
  egressReady : Bool
  storeRecord : Option ServiceInstanceSpec
  now : String
  putFails : Bool
  deriving DecidableEq

/-- Outcome of the body of the `routine` closure (registry.go lines
118-145) before the deferred `recover`: either a normal return or a panic.
A panic carries the state at the point it was raised, since field mutations
made before the panic (in particular `rcs.registered = true`) persist. -/
inductive AttemptResult where
  | ok (s : ServerState) (ins : ServiceInstanceSpec) (effs : List Effect)
  | panicked (msg : String) (s : ServerState) (ins : ServiceInstanceSpec)
      (effs : List Effect)
  deriving DecidableEq

/-- Mirrors registry.go lines 140-144: stamp status and registry time on the
(shared, mutated) record, set `registered = true`, and issue the put — whose
result the source ignores; a failing put panics after `registered` is
already true, so the panic carries `registered = true`. -/
def attemptPut (env : Env) (s : ServerState) (ins : ServiceInstanceSpec)
    (effs : List Effect) : AttemptResult :=
  let ins' := { ins with status := SerivceStatusUp, registryTime := env.now }
  let s' := { s with registered := true }
  if env.putFails then
    .panicked "put failed" s' ins' (effs ++ [.storeWrite ins'])
  else
    .ok s' ins' (effs ++ [.storeWrite ins', .logInfo])

/-- The body of the `routine` closure (registry.go lines 125-144), run when
the loop holds the lock and `registered` is false: evaluate both gates and
return early if either is not ready; read the current record and, when it
exists and needs no update, mark `registered`; otherwise fall through to
`attemptPut`. `tryTimes` is a goroutine-local log counter and is not
modelled. -/
def attemptBody (env : Env) (s : ServerState) (ins : ServiceInstanceSpec) :
    AttemptResult :=
  if !env.ingressReady || !env.egressReady then
    .ok s ins [.logInfo]
  else
    let readEffs : List Effect := [.storeRead s.serviceName s.instanceID]
    match env.storeRecord with
    | some originIns =>
      let effs := readEffs ++ [.logInfo]
      if !needUpdateRecord (some originIns) ins then
        .ok { s with registered := true } ins effs
      else
        attemptPut env s ins effs
    | none => attemptPut env s ins readEffs

/-- Mirrors the deferred `recover()` wrapper of `routine` (registry.go lines
118-124): a panic from the body is caught and logged, and the mutations made
before the panic are kept; the wrapper always returns normally. -/
def routineWith (r : AttemptResult) : ServerState × ServiceInstanceSpec × List Effect :=
  match r with
  | .ok s ins effs => (s, ins, effs)
  | .panicked _ s ins effs => (s, ins, effs ++ [.logError])

/-- One call of the `routine` closure, recovery boundary included. -/
def routine (env : Env) (s : ServerState) (ins : ServiceInstanceSpec) :
    ServerState × ServiceInstanceSpec × List Effect :=
  routineWith (attemptBody env s ins)

/-- Outcome of one iteration of the `for`/`select` loop of `register`
(registry.go lines 107-151): terminate because `done` was closed, terminate
because `registered` is already true, or finish the attempt and continue. -/
inductive StepOutcome where
  | exitDone
  | exitRegistered
  | cont (s : ServerState) (ins : ServiceInstanceSpec) (effs : List Effect)
  deriving DecidableEq

/-- One loop iteration with an arbitrary attempt result `r` in place of the
body: the `select` observes the closed `done` channel first (a ready case
wins over `default`), then the lock-protected `registered` check, then the
recovery-wrapped attempt, sleep and unlock. -/
def loopStepWith (r : AttemptResult) (s : ServerState)
    (ins : ServiceInstanceSpec) : StepOutcome :=
  if s.doneClosed then .exitDone
  else if s.registered then .exitRegistered
  else
    let res := routineWith r
    .cont res.1 res.2.1 res.2.2

/-- One loop iteration of `register` against environment `env`. -/
def loopStep (env : Env) (s : ServerState) (ins : ServiceInstanceSpec) :
    StepOutcome :=
  loopStepWith (attemptBody env s ins) s ins

/-- The loop run against a finite schedule of environments (one per
iteration; the loop itself is unbounded, a finite prefix suffices for every
claim). Returns the final state, the shared record, and the concatenated
effect trace; terminal outcomes contribute no effects. -/
def loopRun (envs : List Env) (s : ServerState) (ins : ServiceInstanceSpec) :
    ServerState × ServiceInstanceSpec × List Effect :=
  match envs with
  | [] => (s, ins, [])
  | env :: rest =>
    match loopStep env s ins with
    | .exitDone => (s, ins, [])
    | .exitRegistered => (s, ins, [])
    | .cont s' ins' effs =>
      let res := loopRun rest s' ins'
      (res.1, res.2.1, effs ++ res.2.2)

/-- Intra-iteration events of one pass through the loop body (registry.go
lines 112-149), in source order. When `registered` is observed true the
iteration is `Lock; Unlock; return` (lines 112-115); otherwise it is
`Lock; routine(); time.Sleep(1s); mutex.Unlock()` (lines 112, 147, 148,
149) — the sleep sits between the attempt and the unlock. -/
inductive LoopEvent where
  | lockAcquire
  | attemptRun
  | sleep
  | lockRelease
  deriving DecidableEq

/-- The event order of one iteration, by whether `registered` was observed
true at line 113. -/
def iterationTrace (registered : Bool) : List LoopEvent :=
  if registered then [.lockAcquire, .lockRelease]
  else [.lockAcquire, .attemptRun, .sleep, .lockRelease]

end registrycenter

namespace storage

/-- Abstract handle of a `cluster.Mutex` (the distributed mutual-exclusion
object handed out by the cluster; its implementation is out of scope). -/
structure MutexHandle where
  id : String
  deriving DecidableEq

/-- Modelled from the spec: a raw entry (`mvccpb.KeyValue`) as far as the
facade's pass-through signatures need it. -/
structure KeyValue where
  key : String
  value : String
  deriving DecidableEq

/-- Modelled from the spec: an abstract `cluster.Syncer` handle, created
with an interval in seconds. -/
structure SyncerHandle where
  intervalSeconds : Nat
  deriving DecidableEq

/-- Modelled from the spec: the `cluster.Cluster` interface the facade
consumes (its defining file is not under src/) — a named distributed mutex
factory with Lock/Unlock, point and range reads, plain and lease-bound
writes, atomic put-and-delete batches, deletes, and a syncer factory. Each
operation is an opaque function; `Except`'s error is the Go error. -/
structure Cluster where
  mutexNew : String → Except String MutexHandle
  mutexLock : MutexHandle → Except String Unit
  mutexUnlock : MutexHandle → Except String Unit
  get : String → Except String (Option String)
  getPfx : String → Except String (List (String × String))
  getRaw : String → Except String (Option KeyValue)
  getRawPfx : String → Except String (List (String × KeyValue))
  put : String → String → Except String Unit
  putUnderLease : String → String → Except String Unit
  putAndDelete : List (String × Option String) → Except String Unit
  putAndDeleteUnderLease : List (String × Option String) → Except String Unit
  delete : String → Except String Unit
  deletePfx : String → Except String Unit
  syncer : Nat → Except String SyncerHandle

/-- Mirrors the `clusterStorage` struct: name, cluster handle, and the
cached mutex handle (`nil` ↦ `none`). -/
structure clusterStorage where
  name : String
  cls : Cluster
  mutex : Option MutexHandle

/-- Mirrors `mutexGoReady`: reuse an existing handle; otherwise ask the
cluster for one and cache it only on success — a failure leaves the state
unchanged and returns the wrapped error. -/
def mutexGoReady (cs : clusterStorage) : Except String clusterStorage :=
  match cs.mutex with
  | some _ => .ok cs
  | none =>
    match cs.cls.mutexNew cs.name with
    | .error e => .error ("create mutex for " ++ cs.name ++ " failed: " ++ e)
    | .ok m => .ok { cs with mutex := some m }

/-- Mirrors `New`: build the facade and eagerly attempt `mutexGoReady`; on
failure the error is only logged (`logger.Errorf`) and the facade is
returned with no handle cached; either way a facade is returned. -/
def New (name : String) (cls : Cluster) : clusterStorage :=
  let cs : clusterStorage := { name := name, cls := cls, mutex := none }
  match mutexGoReady cs with
  | .error _ => cs
  | .ok cs' => cs'

/-- Mirrors `Lock`: ensure the handle exists (retrying creation if absent),
surfacing a creation failure to the caller with the state unchanged;
otherwise delegate to the handle's Lock. The returned pair is the (possibly
updated) facade state and the call's result. -/
def Lock (cs : clusterStorage) : clusterStorage × Except String Unit :=
  match mutexGoReady cs with
  | .error e => (cs, .error e)
  | .ok cs' =>
    match cs'.mutex with
    | some m => (cs', cs'.cls.mutexLock m)
    | none => (cs', .error "nil mutex")

/-- Mirrors `Unlock`: same initialization pattern as `Lock`, then delegate
to the handle's Unlock. -/
def Unlock (cs : clusterStorage) : clusterStorage × Except String Unit :=
  match mutexGoReady cs with
  | .error e => (cs, .error e)
  | .ok cs' =>
    match cs'.mutex with
    | some m => (cs', cs'.cls.mutexUnlock m)
    | none => (cs', .error "nil mutex")

/-- Mirrors `Get`: pass-through delegation to the cluster. -/
def Get (cs : clusterStorage) (key : String) : Except String (Option String) :=
  cs.cls.get key

/-- Mirrors `GetPrefix`: pass-through delegation to the cluster. -/
def GetPfx (cs : clusterStorage) (p : String) : Except String (List (String × String)) :=
  cs.cls.getPfx p

/-- Mirrors `GetRaw`: pass-through delegation to the cluster. -/
def GetRaw (cs : clusterStorage) (key : String) : Except String (Option KeyValue) :=
  cs.cls.getRaw key

/-- Mirrors `GetRawPrefix`: pass-through delegation to the cluster. -/
def GetRawPfx (cs : clusterStorage) (p : String) : Except String (List (String × KeyValue)) :=
  cs.cls.getRawPfx p

/-- Mirrors `Put`: pass-through delegation to the cluster. -/
def Put (cs : clusterStorage) (key value : String) : Except String Unit :=
  cs.cls.put key value

/-- Mirrors `PutUnderLease`: pass-through delegation to the cluster. -/
def PutUnderLease (cs : clusterStorage) (key value : String) : Except String Unit :=
  cs.cls.putUnderLease key value

/-- Mirrors `PutAndDelete`: pass-through delegation to the cluster. -/
def PutAndDelete (cs : clusterStorage) (kvs : List (String × Option String)) :
    Except String Unit :=
  cs.cls.putAndDelete kvs

/-- Mirrors `PutAndDeleteUnderLease`: pass-through delegation to the cluster. -/
def PutAndDeleteUnderLease (cs : clusterStorage) (kvs : List (String × Option String)) :
    Except String Unit :=
  cs.cls.putAndDeleteUnderLease kvs

/-- Mirrors `Delete`: pass-through delegation to the cluster. -/
def Delete (cs : clusterStorage) (key : String) : Except String Unit :=
  cs.cls.delete key

/-- Mirrors `DeletePrefix`: pass-through delegation to the cluster. -/
def DeletePfx (cs : clusterStorage) (p : String) : Except String Unit :=
  cs.cls.deletePfx p

/-- Mirrors `Syncer`: delegates to the cluster's syncer factory with
`time.Minute`, modelled as 60 seconds. -/
def Syncer (cs : clusterStorage) : Except String SyncerHandle :=
  cs.cls.syncer 60

end storage

namespace registrycenter

/-- The end-to-end scenario record of the spec: `(svc="orders", id="i-1",
ip="10.0.0.5", port=8080)`, status and registry time still at their zero
values. -/
def insA : ServiceInstanceSpec :=
  { serviceName := "orders"
    instanceID := "i-1"
    ip := "10.0.0.5"
    port := 8080
    labels := []
    status := ""
    registryTime := "" }

/-- A freshly constructed controller for the scenario service. -/
def sA : ServerState :=
  NewRegistryCenterServer "eureka" "orders" "10.0.0.5" 8080 "i-1" []

/-- The controller after a successful registration. -/
def sRegistered : ServerState := { sA with registered := true }

/-- A fully ready environment with no prior record and a healthy store. -/
def envReady : Env :=
  { ingressReady := true
    egressReady := true
    storeRecord := none
    now := "2024-01-01T00:00:00Z"
    putFails := false }

/-- An environment whose ingress gate is not ready. -/
def envNotReady : Env := { envReady with ingressReady := false }

/-- A ready environment whose store write fails. -/
def envPutFails : Env := { envReady with putFails := true }

/-- A ready environment whose store already holds a record matching `insA`
in IP and Port but differing in labels and registry time. -/
def envSameIPPort : Env :=
  { envReady with
    storeRecord := some { insA with
      labels := [("version", "v2")]
      status := "up"
      registryTime := "2023-06-01T00:00:00Z" } }

/-- The scenario service spec handed to `Register`. -/
def spcA : ServiceSpec := { registerTenant := "tenant-a", sidecarIngressPort := 8080 }

/-- One attempt either leaves the controller state untouched or only flips
`registered` to true; no other mutation of the controller state exists in
the attempt body. -/
theorem routine_state_cases (env : Env) (s : ServerState) (ins : ServiceInstanceSpec) :
    (routine env s ins).1 = s ∨ (routine env s ins).1 = { s with registered := true } := by
  unfold routine routineWith attemptBody attemptPut
  by_cases hg : (!env.ingressReady || !env.egressReady) = true
  · simp [hg]
  · rcases hsr : env.storeRecord with _ | o
    · rcases hpf : env.putFails <;> simp [hg, hsr, hpf]
    · rcases hup : needUpdateRecord (some o) ins <;>
        rcases hpf : env.putFails <;> simp [hg, hsr, hup, hpf]

/-- An attempt never resets `registered`. -/
theorem routine_registered_mono (env : Env) (s : ServerState) (ins : ServiceInstanceSpec)
    (h : s.registered = true) : ((routine env s ins).1).registered = true := by
  rcases routine_state_cases env s ins with hc | hc <;> rw [hc] <;> simp [h]

/-- An attempt never touches the cancellation flag. -/
theorem routine_preserves_doneClosed (env : Env) (s : ServerState)
    (ins : ServiceInstanceSpec) :
    ((routine env s ins).1).doneClosed = s.doneClosed := by
  rcases routine_state_cases env s ins with hc | hc <;> rw [hc]

/-- A registered controller's iteration is terminal. -/
theorem loopStep_registered_exit (env : Env) (s : ServerState)
    (ins : ServiceInstanceSpec) (h : s.registered = true) :
    loopStep env s ins = .exitDone ∨ loopStep env s ins = .exitRegistered := by
  unfold loopStep loopStepWith
  rcases hd : s.doneClosed <;> simp [h]

/-- A registered controller's loop stops with no further effects. -/
theorem loopRun_registered_stops (envs : List Env) (s : ServerState)
    (ins : ServiceInstanceSpec) (h : s.registered = true) :
    loopRun envs s ins = (s, ins, []) := by
  cases envs with
  | nil => rfl
  | cons env rest =>
    unfold loopRun
    rcases loopStep_registered_exit env s ins h with hs | hs <;> rw [hs]

/-- A cancelled controller's loop stops with no further effects. -/
theorem loopRun_done_stops (envs : List Env) (s : ServerState)
    (ins : ServiceInstanceSpec) (h : s.doneClosed = true) :
    loopRun envs s ins = (s, ins, []) := by
  cases envs with
  | nil => rfl
  | cons env rest =>
    unfold loopRun loopStep loopStepWith
    simp [h]

/-- C1: in a single attempt with both readiness gates true, when the prior
record is absent or differs from the desired record in IP or Port, exactly
one store write is issued, carrying the desired IP and Port, status "up"
and the non-empty RFC 3339 time stamp, and `registered` becomes true; when
the prior record matches in IP and Port (labels and the rest are not
compared), no write is issued and `registered` still becomes true. -/
theorem C1_single_attempt_write_policy (env : Env) (s : ServerState)
    (ins : ServiceInstanceSpec)
    (hin : env.ingressReady = true) (heg : env.egressReady = true)
    (hnow : env.now ≠ "") :
    ((routine env s ins).1).registered = true ∧
    (needUpdateRecord env.storeRecord ins = true →
      ∃ w, writesOf (routine env s ins).2.2 = [w] ∧
        w.ip = ins.ip ∧ w.port = ins.port ∧ w.status = SerivceStatusUp ∧
        w.registryTime = env.now ∧ w.registryTime ≠ "") ∧
    (needUpdateRecord env.storeRecord ins = false →
      writesOf (routine env s ins).2.2 = []) := by
  unfold routine routineWith attemptBody attemptPut
  rcases hsr : env.storeRecord with _ | o
  · rcases hpf : env.putFails <;>
      simp [hin, heg, hsr, hpf, needUpdateRecord, writesOf, hnow]
  · rcases hup : needUpdateRecord (some o) ins <;>
      rcases hpf : env.putFails <;>
      simp [hin, heg, hsr, hup, hpf, writesOf, hnow]

/-- Witness for C1 at the end-to-end scenario input: with no prior record
one stamped write is issued and the controller registers; with a prior
record matching in IP and Port but drifted in labels, no write is issued
and the controller still registers. -/
theorem C1_single_attempt_write_policy_witness :
    (∃ w, writesOf (routine envReady sA insA).2.2 = [w] ∧
      w.ip = insA.ip ∧ w.port = insA.port ∧ w.status = SerivceStatusUp ∧
      w.registryTime = envReady.now ∧ w.registryTime ≠ "") ∧
    ((routine envReady sA insA).1).registered = true ∧
    ((routine envSameIPPort sA insA).1).registered = true ∧
    writesOf (routine envSameIPPort sA insA).2.2 = [] := by
  have h1 := C1_single_attempt_write_policy envReady sA insA rfl rfl (by decide)
  have h2 := C1_single_attempt_write_policy envSameIPPort sA insA rfl rfl (by decide)
  exact ⟨h1.2.1 (by decide), h1.1, h2.1, h2.2.2 (by decide)⟩

/-- C2: the `registered` flag is monotonic — an attempt never resets it,
`Register` and `Close` never change it — and a registered controller's loop
performs no further store operations and terminates at its next iteration
(either terminal exit). -/
theorem C2_registered_monotone :
    (∀ env s ins, s.registered = true → ((routine env s ins).1).registered = true) ∧
    (∀ spc s n, ((Register spc s n).1).registered = s.registered) ∧
    (∀ s s', Close s = .ok s' → s'.registered = s.registered) ∧
    (∀ env s ins, s.registered = true →
      loopStep env s ins = .exitDone ∨ loopStep env s ins = .exitRegistered) ∧
    (∀ envs s ins, s.registered = true → loopRun envs s ins = (s, ins, [])) := by
  refine ⟨routine_registered_mono, ?_, ?_, loopStep_registered_exit,
    loopRun_registered_stops⟩
  · intro spc s n
    unfold Register Registered
    rcases h : s.registered <;> simp [h]
  · intro s s' h
    unfold Close at h
    split at h
    · exact absurd h (by simp)
    · cases h; rfl

/-- Witness for C2: a registered controller stays registered through an
attempt and its loop stops at once with no effects. -/
theorem C2_registered_monotone_witness :
    ((routine envReady sRegistered insA).1).registered = true ∧
    loopRun [envReady] sRegistered insA = (sRegistered, insA, []) :=
  ⟨C2_registered_monotone.1 envReady sRegistered insA rfl,
   C2_registered_monotone.2.2.2.2 [envReady] sRegistered insA rfl⟩

/-- C3 counterexample: on a fresh (unregistered) controller, two successive
`Register` calls — both made before registration has succeeded — start two
background tasks, not at most one. -/
theorem C3_counterexample :
    sA.registered = false ∧
    ((Register spcA sA 0).1).registered = false ∧
    (Register spcA (Register spcA sA 0).1 (Register spcA sA 0).2.1).2.1 = 2 :=
  ⟨rfl, rfl, rfl⟩

/-- C3 as amended: `Register` starts no task when `registered` is already
true (it only updates `tenant`); every call made while `registered` is
false starts exactly one new background task with the freshly built desired
record, so repeated calls before registration succeeds do start duplicate
tasks. -/
theorem C3_register_starts_task_per_call (spc : ServiceSpec) (s : ServerState)
    (n : Nat) :
    (Register spc s n).2.1 = (if s.registered then n else n + 1) ∧
    (Register spc s n).1 = { s with tenant := spc.registerTenant } ∧
    (Register spc s n).2.2 = (if s.registered then none else some
      { serviceName := s.serviceName
        instanceID := s.instanceID
        ip := s.ip
        port := spc.sidecarIngressPort % 2 ^ 32
        labels := s.serviceLabels
        status := ""
        registryTime := "" }) := by
  unfold Register Registered
  rcases h : s.registered <;> simp [h]

/-- C4: when at least one readiness gate is false, the attempt performs no
store read and no store write, leaves the controller state and the shared
record unchanged, and in particular does not change `registered`. -/
theorem C4_gate_blocking (env : Env) (s : ServerState) (ins : ServiceInstanceSpec)
    (h : env.ingressReady = false ∨ env.egressReady = false) :
    (routine env s ins).1 = s ∧ (routine env s ins).2.1 = ins ∧
    ((routine env s ins).1).registered = s.registered ∧
    ∀ e ∈ (routine env s ins).2.2, e.isStoreOp = false := by
  have hg : (!env.ingressReady || !env.egressReady) = true := by
    rcases h with h | h <;> simp [h]
  unfold routine routineWith attemptBody
  simp [hg, Effect.isStoreOp]

/-- Witness for C4 with the ingress gate not ready. -/
theorem C4_gate_blocking_witness :
    (routine envNotReady sA insA).1 = sA ∧ (routine envNotReady sA insA).2.1 = insA ∧
    ((routine envNotReady sA insA).1).registered = sA.registered ∧
    ∀ e ∈ (routine envNotReady sA insA).2.2, e.isStoreOp = false :=
  C4_gate_blocking envNotReady sA insA (Or.inl rfl)

/-- C5 counterexample: with both gates ready, no prior record and a failing
store write, the attempt leaves the controller with `registered = true`
(the flag is assigned before the put), and the next iteration exits as
registered instead of retrying — refuting the claim that a failed write
does not leave the controller registered. -/
theorem C5_counterexample :
    envPutFails.putFails = true ∧
    ((routine envPutFails sA insA).1).registered = true ∧
    Effect.logError ∈ (routine envPutFails sA insA).2.2 ∧
    loopStep envPutFails (routine envPutFails sA insA).1
      (routine envPutFails sA insA).2.1 = .exitRegistered := by
  decide

/-- C5 as amended: a failing store write is contained by the per-attempt
recovery boundary and logged, and the loop is not crashed; but `registered`
is set to true before the write is issued, so the failed write leaves the
controller registered and the loop exits at its next iteration rather than
retrying the write. -/
theorem C5_put_failure_leaves_registered (env env2 : Env) (s : ServerState)
    (ins : ServiceInstanceSpec)
    (hin : env.ingressReady = true) (heg : env.egressReady = true)
    (hupd : needUpdateRecord env.storeRecord ins = true)
    (hfail : env.putFails = true) (hdone : s.doneClosed = false) :
    ((routine env s ins).1).registered = true ∧
    Effect.logError ∈ (routine env s ins).2.2 ∧
    loopStep env2 (routine env s ins).1 (routine env s ins).2.1 = .exitRegistered := by
  have key : ((routine env s ins).1).registered = true ∧
      Effect.logError ∈ (routine env s ins).2.2 := by
    unfold routine routineWith attemptBody attemptPut
    rcases hsr : env.storeRecord with _ | o
    · simp [hin, heg, hfail, hsr]
    · rw [hsr] at hupd
      simp [hin, heg, hfail, hsr, hupd]
  have hdc : ((routine env s ins).1).doneClosed = false := by
    rw [routine_preserves_doneClosed]; exact hdone
  refine ⟨key.1, key.2, ?_⟩
  unfold loopStep loopStepWith
  simp [hdc, key.1]

/-- Witness for the amended C5 at the scenario input with a failing put. -/
theorem C5_put_failure_leaves_registered_witness :
    ((routine envPutFails sA insA).1).registered = true ∧
    Effect.logError ∈ (routine envPutFails sA insA).2.2 ∧
    loopStep envReady (routine envPutFails sA insA).1
      (routine envPutFails sA insA).2.1 = .exitRegistered :=
  C5_put_failure_leaves_registered envPutFails envReady sA insA rfl rfl
    (by decide) rfl rfl

/-- C6 counterexample: in an iteration that runs an attempt, the sleep
event occurs strictly before the lock release — the source sleeps at line
148 and only then unlocks at line 149 — refuting the claim that the lock is
released before the sleep begins. -/
theorem C6_counterexample :
    (iterationTrace false).indexOf LoopEvent.sleep <
      (iterationTrace false).indexOf LoopEvent.lockRelease := by
  decide

/-- C6 as amended: the fixed 1-second sleep happens inside the critical
section — after the attempt and before the lock release — so the exclusion
lock is held while the loop sleeps. -/
theorem C6_sleep_inside_lock (b : Bool) :
    LoopEvent.sleep ∈ iterationTrace b →
      (iterationTrace b).indexOf LoopEvent.attemptRun <
        (iterationTrace b).indexOf LoopEvent.sleep ∧
      (iterationTrace b).indexOf LoopEvent.sleep <
        (iterationTrace b).indexOf LoopEvent.lockRelease := by
  cases b <;> decide

/-- Witness for the amended C6 at the attempt-running iteration. -/
theorem C6_sleep_inside_lock_witness :
    (iterationTrace false).indexOf LoopEvent.attemptRun <
      (iterationTrace false).indexOf LoopEvent.sleep ∧
    (iterationTrace false).indexOf LoopEvent.sleep <
      (iterationTrace false).indexOf LoopEvent.lockRelease :=
  C6_sleep_inside_lock false (by decide)

/-- C7: `Close` signals exactly once — a second call fails loudly (Go
panics on closing a closed channel) — after which the loop observes the
signal at its next loop-top check and exits with no further attempt or
store operation; closing after the loop has already terminated as
registered is safe and the terminated loop stays terminated. -/
theorem C7_close_once_loop_exits :
    (∀ s, s.doneClosed = false → Close s = .ok { s with doneClosed := true }) ∧
    (∀ s, s.doneClosed = true → Close s = .error "close of closed channel") ∧
    (∀ env s ins, s.doneClosed = true → loopStep env s ins = .exitDone) ∧
    (∀ envs s ins, s.doneClosed = true → loopRun envs s ins = (s, ins, [])) ∧
    (∀ s s', s.registered = true → Close s = .ok s' →
      ∀ envs ins, loopRun envs s' ins = (s', ins, [])) := by
  refine ⟨?_, ?_, ?_, loopRun_done_stops, ?_⟩
  · intro s h; unfold Close; simp [h]
  · intro s h; unfold Close; simp [h]
  · intro env s ins h; unfold loopStep loopStepWith; simp [h]
  · intro s s' hreg hc envs ins
    apply loopRun_registered_stops
    unfold Close at hc
    split at hc
    · exact absurd hc (by simp)
    · cases hc; exact hreg

/-- Witness for C7: closing the fresh scenario controller succeeds and the
loop of the closed controller stops at once with no effects. -/
theorem C7_close_once_loop_exits_witness :
    Close sA = .ok { sA with doneClosed := true } ∧
    loopRun [envReady] { sA with doneClosed := true } insA =
      ({ sA with doneClosed := true }, insA, []) :=
  ⟨C7_close_once_loop_exits.1 sA rfl,
   C7_close_once_loop_exits.2.2.2.1 [envReady] { sA with doneClosed := true } insA rfl⟩

/-- C8: any panic raised inside one attempt — whatever state and effects it
carries — is caught by the attempt's recovery boundary and logged, and the
iteration still completes with a `cont` outcome: the loop is not crashed
and proceeds to its next iteration. -/
theorem C8_fault_containment (msg : String) (sp s : ServerState)
    (insp ins : ServiceInstanceSpec) (effs : List Effect)
    (hdone : s.doneClosed = false) (hreg : s.registered = false) :
    routineWith (.panicked msg sp insp effs) = (sp, insp, effs ++ [Effect.logError]) ∧
    loopStepWith (.panicked msg sp insp effs) s ins =
      .cont sp insp (effs ++ [Effect.logError]) := by
  constructor
  · rfl
  · unfold loopStepWith routineWith
    simp [hdone, hreg]

/-- Witness for C8 with an injected panic on the fresh scenario controller. -/
theorem C8_fault_containment_witness :
    routineWith (.panicked "boom" sA insA []) = (sA, insA, [Effect.logError]) ∧
    loopStepWith (.panicked "boom" sA insA []) sA insA =
      .cont sA insA [Effect.logError] := by
  have h := C8_fault_containment "boom" sA sA insA insA [] rfl rfl
  simpa using h

end registrycenter

namespace storage

/-- A concrete mutex handle for the storage witnesses. -/
def mA : MutexHandle := { id := "mutex-svc" }

/-- A cluster whose mutex factory succeeds; the data operations are
arbitrary healthy stubs. -/
def clsOK : Cluster :=
  { mutexNew := fun _ => .ok mA
    mutexLock := fun _ => .ok ()
    mutexUnlock := fun _ => .ok ()
    get := fun _ => .ok none
    getPfx := fun _ => .ok []
    getRaw := fun _ => .ok none
    getRawPfx := fun _ => .ok []
    put := fun _ _ => .ok ()
    putUnderLease := fun _ _ => .ok ()
    putAndDelete := fun _ => .ok ()
    putAndDeleteUnderLease := fun _ => .ok ()
    delete := fun _ => .ok ()
    deletePfx := fun _ => .ok ()
    syncer := fun _ => .ok { intervalSeconds := 60 } }

/-- The same cluster with a failing mutex factory. -/
def clsBad : Cluster := { clsOK with mutexNew := fun _ => .error "etcd down" }

/-- C9 counterexample: with a healthy cluster the mutex handle already
exists right after `New`, before any `Lock` or `Unlock` call — `New`
invokes `mutexGoReady` eagerly at construction, refuting creation "lazily
on first use". -/
theorem C9_counterexample : (New "svc" clsOK).mutex = some mA := rfl

/-- C9 as amended: the facade attempts to create the mutex handle eagerly
at construction (a failure there is only logged, and no handle is cached)
and again, idempotently, on each `Lock`/`Unlock` while the handle is
absent: an existing handle is reused without creating a new one; a creation
failure is surfaced to the `Lock`/`Unlock` caller with the facade state
unchanged — no broken handle is cached — so the next call attempts creation
again. -/
theorem C9_mutex_init_idempotent (cs : clusterStorage) (name : String)
    (cls : Cluster) (m : MutexHandle) (e : String) :
    (cs.mutex = some m → mutexGoReady cs = .ok cs) ∧
    (cls.mutexNew name = .ok m → (New name cls).mutex = some m) ∧
    (cls.mutexNew name = .error e → (New name cls).mutex = none) ∧
    (cs.mutex = none → cs.cls.mutexNew cs.name = .error e →
      Lock cs = (cs, .error ("create mutex for " ++ cs.name ++ " failed: " ++ e)) ∧
      Unlock cs = (cs, .error ("create mutex for " ++ cs.name ++ " failed: " ++ e))) := by
  refine ⟨?_, ?_, ?_, ?_⟩
  · intro h; unfold mutexGoReady; rw [h]
  · intro h; unfold New mutexGoReady; simp [h]
  · intro h; unfold New mutexGoReady; simp [h]
  · intro h1 h2
    constructor
    · unfold Lock mutexGoReady; rw [h1, h2]
    · unfold Unlock mutexGoReady; rw [h1, h2]

/-- Witness for the amended C9 with a failing mutex factory. -/
theorem C9_mutex_init_idempotent_witness :
    (New "svc" clsBad).mutex = none ∧
    Lock (New "svc" clsBad) =
      (New "svc" clsBad,
       .error ("create mutex for " ++ "svc" ++ " failed: " ++ "etcd down")) := by
  have h := C9_mutex_init_idempotent (New "svc" clsBad) "svc" clsBad mA "etcd down"
  exact ⟨h.2.2.1 rfl, (h.2.2.2 rfl rfl).1⟩

/-- C10: `New` always yields a facade — also when mutex creation fails (the
error is only logged and no handle cached) — and on such a facade every
data operation still delegates to the underlying cluster unaffected; only
`Lock` and `Unlock` report the mutex-creation failure. -/
theorem C10_new_total_data_ops_unaffected (name : String) (cls : Cluster)
    (e : String) (h : cls.mutexNew name = .error e) :
    (New name cls).mutex = none ∧
    (∀ k, Get (New name cls) k = cls.get k) ∧
    (∀ p, GetPfx (New name cls) p = cls.getPfx p) ∧
    (∀ k, GetRaw (New name cls) k = cls.getRaw k) ∧
    (∀ p, GetRawPfx (New name cls) p = cls.getRawPfx p) ∧
    (∀ k v, Put (New name cls) k v = cls.put k v) ∧
    (∀ k v, PutUnderLease (New name cls) k v = cls.putUnderLease k v) ∧
    (∀ kvs, PutAndDelete (New name cls) kvs = cls.putAndDelete kvs) ∧
    (∀ kvs, PutAndDeleteUnderLease (New name cls) kvs = cls.putAndDeleteUnderLease kvs) ∧
    (∀ k, Delete (New name cls) k = cls.delete k) ∧
    (∀ p, DeletePfx (New name cls) p = cls.deletePfx p) ∧
    Syncer (New name cls) = cls.syncer 60 ∧
    (Lock (New name cls)).2 = .error ("create mutex for " ++ name ++ " failed: " ++ e) ∧
    (Unlock (New name cls)).2 = .error ("create mutex for " ++ name ++ " failed: " ++ e) := by
  have hnew : New name cls = { name := name, cls := cls, mutex := none } := by
    unfold New mutexGoReady; simp [h]
  rw [hnew]
  refine ⟨rfl, fun k => rfl, fun p => rfl, fun k => rfl, fun p => rfl,
    fun k v => rfl, fun k v => rfl, fun kvs => rfl, fun kvs => rfl,
    fun k => rfl, fun p => rfl, rfl, ?_, ?_⟩
  · unfold Lock mutexGoReady; simp [h]
  · unfold Unlock mutexGoReady; simp [h]

/-- Witness for C10 with a failing mutex factory: a data read is untouched
while `Lock` reports the creation error. -/
theorem C10_new_total_data_ops_unaffected_witness :
    Get (New "svc" clsBad) "k" = clsBad.get "k" ∧
    (Lock (New "svc" clsBad)).2 =
      .error ("create mutex for " ++ "svc" ++ " failed: " ++ "etcd down") := by
  have h := C10_new_total_data_ops_unaffected "svc" clsBad "etcd down" rfl
  obtain ⟨-, hget, -, -, -, -, -, -, -, -, -, -, hlock, -⟩ := h
  exact ⟨hget "k", hlock⟩

end storage
